import Mathlib

/-!
Shallow embedding of the core of the `vibe_trade` market-making engine
(TypeScript sources: `StoikovEngine.ts`, `MarketDataProcessor.ts`,
`CrossVenueHedgeBot.ts` (RiskManager), the StoikovBot controller, the
ExecutionEngine and the PatientStoikovEventDetector), together with
theorems settling the frozen claims C1-C10 about it.

Conventions:
- JavaScript numbers are modelled as `ℚ` where the code only does field
  arithmetic and comparisons, and as `ℝ` where it uses `Math.log`,
  `Math.sqrt` or `Math.tanh`.
- Mutating methods become functions from the relevant state record to the
  updated record, paired with the list of events the method emits.
- `Date.now()` and `new Date().getUTCHours()` become explicit `now`/`hour`
  parameters.
-/

namespace VibeTrade

/-! ## MarketDataProcessor.calculateMarketImpact (claim C4)

Source: `src/data/MarketDataProcessor.ts`, lines 329-354.  An order-book
side is a list of `(price, size)` levels.  The loop walks the levels with a
running `remainingUsd`, accumulating `totalShares` and `weightedAvgPrice`
(the sum of `price * shares`); it breaks as soon as the level value covers
the remaining notional. -/

/-- One `(price, size)` level of an L2 order book. -/
structure BookLevel where
  price : ℚ
  size : ℚ
deriving DecidableEq, Repr

/-- The accumulation loop of `calculateMarketImpact`: given the remaining
notional, returns `(totalShares, weightedAvgPrice)` exactly as the
`for (const entry of entries)` loop of the source computes them. -/
def impactWalk : List BookLevel → ℚ → ℚ × ℚ
  | [], _ => (0, 0)
  | e :: rest, remainingUsd =>
      let entryValue := e.price * e.size
      if remainingUsd ≤ entryValue then
        let sharesNeeded := remainingUsd / e.price
        (sharesNeeded, e.price * sharesNeeded)
      else
        let r := impactWalk rest (remainingUsd - entryValue)
        (e.size + r.1, e.price * e.size + r.2)

/-- `MarketDataProcessor.calculateMarketImpact(entries, usdAmount)`:
walk the book; if no shares were accumulated return 0, otherwise return
`weightedAvgPrice / totalShares`. -/
def calculateMarketImpact (entries : List BookLevel) (usdAmount : ℚ) : ℚ :=
  let r := impactWalk entries usdAmount
  if r.1 = 0 then 0 else r.2 / r.1

/-- Total notional `Σ price·size` of a book side. -/
def totalNotional (entries : List BookLevel) : ℚ :=
  (entries.map (fun e => e.price * e.size)).sum

/-- Total size `Σ size` of a book side. -/
def totalSize (entries : List BookLevel) : ℚ :=
  (entries.map (fun e => e.size)).sum

/-- The impact metric as the spec sentence describes it (refinement
reference for C4): same greedy walk, but the walk reports failure (`none`)
when the book runs out before the notional is absorbed, and the metric is
0 in that case. -/
def specImpactWalk : List BookLevel → ℚ → Option (ℚ × ℚ)
  | [], _ => none
  | e :: rest, remainingUsd =>
      let entryValue := e.price * e.size
      if remainingUsd ≤ entryValue then
        let sharesNeeded := remainingUsd / e.price
        some (sharesNeeded, e.price * sharesNeeded)
      else
        (specImpactWalk rest (remainingUsd - entryValue)).map
          (fun r => (e.size + r.1, e.price * e.size + r.2))

/-- The spec-side impact metric: notional-weighted average fill price of
the walk, and 0 when the book cannot absorb the notional. -/
def specMarketImpact (entries : List BookLevel) (usdAmount : ℚ) : ℚ :=
  match specImpactWalk entries usdAmount with
  | none => 0
  | some r => if r.1 = 0 then 0 else r.2 / r.1

/-! ## RiskManager (claims C6 and C9)

Source: `src/bots/CrossVenueHedgeBot.ts`, class `RiskManager`.  Claim C6
concerns `updatePnL` (lines 564-603), claim C9 concerns `canTrade`
(lines 819-821) and `getSizeMultiplier` (lines 827-840).  We model the
fields of the class that these methods read and write. -/

/-- `riskLevel` values of `RiskMetrics`. -/
inductive RiskLevel where
  | low
  | medium
  | high
  | critical
deriving DecidableEq, Repr

/-- The PnL / drawdown fields of `RiskManager` touched by `updatePnL`:
`sessionPnL`, `dailyPnL`, the two high-water marks (all initialised to 0
in the class), and the two drawdown metrics. -/
structure RiskPnlState where
  sessionPnL : ℚ
  dailyPnL : ℚ
  sessionHighWaterMark : ℚ
  dailyHighWaterMark : ℚ
  sessionDDPct : ℚ
  dailyDDPct : ℚ
deriving DecidableEq, Repr

/-- The drawdown limits read by `updatePnL`. -/
structure DDLimits where
  sessionDDLimitPct : ℚ
  dailyDDLimitPct : ℚ
deriving DecidableEq, Repr

/-- A risk event emitted by `emitRiskEvent` inside `updatePnL`:
`type: 'ddLimit'` with a severity, value, limit, action and a
session/daily tag. -/
structure DDRiskEvent where
  severity : String
  value : ℚ
  limit : ℚ
  action : String
  ddType : String
deriving DecidableEq, Repr

/-- `RiskManager.updatePnL(sessionPnL, dailyPnL)`: store the PnLs, raise
the high-water marks, compute
`DD = (HWM - pnl) / |HWM| * 100` clamped at 0 for both horizons, then
check the two drawdown limits. -/
def updatePnL (lim : DDLimits) (s : RiskPnlState) (sessionPnL dailyPnL : ℚ) :
    RiskPnlState × List DDRiskEvent :=
  let sessionHWM := max s.sessionHighWaterMark sessionPnL
  let dailyHWM := max s.dailyHighWaterMark dailyPnL
  let sessionDD := (sessionHWM - sessionPnL) / |sessionHWM| * 100
  let dailyDD := (dailyHWM - dailyPnL) / |dailyHWM| * 100
  let s1 : RiskPnlState :=
    { sessionPnL := sessionPnL
      dailyPnL := dailyPnL
      sessionHighWaterMark := sessionHWM
      dailyHighWaterMark := dailyHWM
      sessionDDPct := max 0 sessionDD
      dailyDDPct := max 0 dailyDD }
  let sessionEvents : List DDRiskEvent :=
    if s1.sessionDDPct > lim.sessionDDLimitPct then
      [{ severity := "limit", value := s1.sessionDDPct,
         limit := lim.sessionDDLimitPct, action := "flatten",
         ddType := "session" }]
    else []
  let dailyEvents : List DDRiskEvent :=
    if s1.dailyDDPct > lim.dailyDDLimitPct then
      [{ severity := "critical", value := s1.dailyDDPct,
         limit := lim.dailyDDLimitPct, action := "stop",
         ddType := "daily" }]
    else []
  (s1, sessionEvents ++ dailyEvents)

/-- The gating flags of `RiskManager` read by `canTrade` together with the
current `riskLevel` read by `getSizeMultiplier`. -/
structure RiskGateState where
  isEmergencyStopped : Bool
  isNewsStopped : Bool
  isInCooldown : Bool
  riskLevel : RiskLevel
deriving DecidableEq, Repr

/-- `RiskManager.canTrade()`: no emergency stop, no news stop, not in
cooldown. -/
def canTrade (s : RiskGateState) : Bool :=
  !s.isEmergencyStopped && !s.isNewsStopped && !s.isInCooldown

/-- `RiskManager.getSizeMultiplier()`: 0 when `canTrade()` is false,
otherwise 0 / 0.5 / 0.8 / 1.0 by risk level. -/
def getSizeMultiplier (s : RiskGateState) : ℚ :=
  if !(canTrade s) then 0
  else
    match s.riskLevel with
    | RiskLevel.critical => 0
    | RiskLevel.high => 1/2
    | RiskLevel.medium => 4/5
    | _ => 1

/-- The size-multiplier table exactly as the spec sentence states it
(refinement reference for C9): critical 0, high 0.5, medium 0.8,
else 1.0. -/
def specSizeMultiplier : RiskLevel → ℚ
  | RiskLevel.critical => 0
  | RiskLevel.high => 1/2
  | RiskLevel.medium => 4/5
  | _ => 1

/-! ## StoikovBot shutdown (claim C2)

Source: `src/unnamed/part_005`, `StoikovBot.cleanup` (lines 257-288) and
`StoikovBot.flattenPosition` (lines 363-392).  We model the inventory
fields the two methods read and the market order `flattenPosition` sends
to the exchange. -/

/-- Order side. -/
inductive Side where
  | buy
  | sell
deriving DecidableEq, Repr

/-- The `InventoryState` fields (position in signed base units). -/
structure InventoryStateQ where
  position : ℚ
  navPct : ℚ
  entryPrice : ℚ
  unrealizedPnl : ℚ
  drift : ℚ
deriving DecidableEq, Repr

/-- A market order sent by `flattenPosition` via `exchange.placeOrder`. -/
structure FlattenOrder where
  side : Side
  amount : ℚ
deriving DecidableEq, Repr

/-- `StoikovBot.flattenPosition()`: if there is no inventory or
`|position| < 0.001` do nothing; otherwise place one market order of size
`|position|` on the side opposite to the position sign. -/
def flattenPositionOrders (inv : Option InventoryStateQ) : List FlattenOrder :=
  match inv with
  | none => []
  | some i =>
      if |i.position| < 1/1000 then []
      else [{ side := if i.position > 0 then Side.sell else Side.buy,
              amount := |i.position| }]

/-- The flatten orders placed by `StoikovBot.cleanup()`: the source guard
is `if (this.botState.currentInventory && !this.botState.currentInventory.position)`,
i.e. `flattenPosition` is invoked only when the position is falsy
(equal to 0). -/
def cleanupFlattenOrders (inv : Option InventoryStateQ) : List FlattenOrder :=
  match inv with
  | none => []
  | some i =>
      if i.position = 0 then flattenPositionOrders (some i)
      else []

/-! ## ExecutionEngine (claims C8 and C10)

Source: `src/unnamed/part_001`, class `ExecutionEngine`.  We model the
engine state the order-update path reads and writes (`managedOrders`,
`stats`, `repostQueue`, `currentState`, `fillTimes`, `lastRepostTime`)
and the methods `handleOrderUpdate` (lines 892-937), `handlePartialFill`,
`handleFullFill`, `handleOrderCanceled`, `handleOrderRejected`
(lines 1009-1025), `retryOrder` (lines 1027-1040) and `queueRepost`.
The source field `partialFills` and state `PARTIAL_FILLED` are rendered
here as `partFills` / `partFilled`. -/

/-- `OrderState` of the execution state machine. -/
inductive OrderState where
  | idle
  | placing
  | makerPlaced
  | partFilled
  | filled
  | cancelling
  | replacing
  | flattening
  | cooldown
  | error
deriving DecidableEq, Repr

/-- A `ManagedOrder` record. -/
structure ManagedOrder where
  id : String
  clientOrderId : String
  side : Side
  price : ℚ
  originalSize : ℚ
  filledSize : ℚ
  remainingSize : ℚ
  state : OrderState
  placedTime : ℚ
  lastUpdateTime : ℚ
  ttlExpiry : ℚ
  retryCount : Nat
  ladderLevel : Nat
  isPostOnly : Bool
deriving DecidableEq, Repr

/-- The `ExecutionConfig` fields used by the modelled methods. -/
structure ExecutionConfig where
  postOnlyOffset : ℚ
  ttlMs : ℚ
  repostMs : ℚ
  maxRetries : Nat
  ladderLevels : Nat
  partFillThresholdPct : ℚ
  queueAheadThreshold : ℚ
  priceToleranceTicks : ℚ
  flattenTimeoutMs : ℚ
  cooldownMs : ℚ
  fillLatencyTarget : ℚ
  repostRateLimit : ℚ
deriving DecidableEq, Repr

/-- The `ExecutionStats` counters. -/
structure ExecutionStats where
  totalOrders : Nat
  filledOrders : Nat
  partFills : Nat
  cancelledOrders : Nat
  failedOrders : Nat
  averageFillTime : ℚ
  repostCount : Nat
  flattenEvents : Nat
  fillRatio : ℚ
  avgQueueTime : ℚ
  rejectionRate : ℚ
deriving DecidableEq, Repr

/-- The mutable engine state touched by the order-update path. -/
structure EngineState where
  managedOrders : List (String × ManagedOrder)
  lastRepostTime : ℚ
  repostQueue : List (String × ℚ)
  currentState : OrderState
  stats : ExecutionStats
  fillTimes : List ℚ
  queueTimes : List ℚ
deriving DecidableEq, Repr

/-- Everything the engine emits or schedules on the order-update path:
`partialFill` / `fullFill` / `requiresRequote` / `orderFailed` /
`placeOrder` events and the `setTimeout(retryOrder, 1000*retryCount)`
scheduling. -/
inductive ExecEvent where
  | partFill (orderId clientOrderId : String) (side : Side)
      (fillSize avgPrice remainingSize : ℚ)
  | fullFill (orderId clientOrderId : String) (side : Side)
      (size avgPrice : ℚ)
  | requiresRequote (reason clientOrderId : String)
  | orderFailed (clientOrderId reason : String)
  | scheduleRetry (clientOrderId : String) (delayMs : ℚ)
  | placeOrder (clientOrderId : String) (side : Side) (price size : ℚ)
deriving DecidableEq, Repr

/-- Look a managed order up by client id (JS `Map.get`). -/
def lookupOrder (m : List (String × ManagedOrder)) (cid : String) :
    Option ManagedOrder :=
  match m with
  | [] => none
  | (k, v) :: rest => if k = cid then some v else lookupOrder rest cid

/-- Replace the value stored under `cid` (JS in-place mutation of the
object held by the `Map`; entry order is preserved, keys are unique). -/
def setOrder : List (String × ManagedOrder) → String → ManagedOrder →
    List (String × ManagedOrder)
  | [], _, _ => []
  | (k, v) :: rest, cid, o =>
      if k = cid then (k, o) :: rest else (k, v) :: setOrder rest cid o

/-- Remove the entry stored under `cid` (JS `Map.delete`). -/
def eraseOrder : List (String × ManagedOrder) → String →
    List (String × ManagedOrder)
  | [], _ => []
  | (k, v) :: rest, cid =>
      if k = cid then eraseOrder rest cid else (k, v) :: eraseOrder rest cid

/-- An exchange order-update payload as read by `handleOrderUpdate`:
`{ clientOrderId, status, orderId, filledQty, remainingQty, avgPrice,
reason }`, with `filledQty || 0` /`remainingQty || 0` defaulting. -/
structure OrderUpdate where
  clientOrderId : String
  status : String
  orderId : String
  filledQty : Option ℚ
  remainingQty : Option ℚ
  avgPrice : ℚ
  reason : String
deriving DecidableEq, Repr

/-- `ExecutionEngine.queueRepost(clientOrderId)`: push onto the repost
queue and emit `requiresRequote` with reason `ttlExpired`. -/
def queueRepost (now : ℚ) (st : EngineState) (cid : String) :
    EngineState × List ExecEvent :=
  ({ st with repostQueue := st.repostQueue ++ [(cid, now)] },
   [ExecEvent.requiresRequote "ttlExpired" cid])

/-- `ExecutionEngine.handlePartialFill(order, fillSize, avgPrice)`
(source name `handlePartialFill`): mark the order partially filled, count
the fill, record the fill time, emit the fill event, and queue a repost
when the cumulative fill fraction reaches `partialFillThresholdPct`. -/
def handlePartFill (cfg : ExecutionConfig) (now : ℚ) (st : EngineState)
    (o : ManagedOrder) (fillSize avgPrice : ℚ) :
    EngineState × List ExecEvent :=
  let o1 := { o with state := OrderState.partFilled }
  let st1 :=
    { st with
      managedOrders := setOrder st.managedOrders o1.clientOrderId o1
      stats := { st.stats with partFills := st.stats.partFills + 1 }
      fillTimes := st.fillTimes ++ [now - o.placedTime] }
  let ev := ExecEvent.partFill o1.id o1.clientOrderId o1.side fillSize
      avgPrice o1.remainingSize
  let fillPct := o1.filledSize / o1.originalSize * 100
  if fillPct ≥ cfg.partFillThresholdPct then
    let r := queueRepost now st1 o1.clientOrderId
    (r.1, ev :: r.2)
  else (st1, [ev])

/-- `ExecutionEngine.handleFullFill(order, fillSize, avgPrice)`: mark
filled, count, record fill time, emit `fullFill`, drop the order from the
managed set, and request a requote. -/
def handleFullFill (now : ℚ) (st : EngineState) (o : ManagedOrder)
    (_fillSize avgPrice : ℚ) : EngineState × List ExecEvent :=
  let o1 := { o with state := OrderState.filled }
  ({ st with
     managedOrders := eraseOrder st.managedOrders o1.clientOrderId
     stats := { st.stats with filledOrders := st.stats.filledOrders + 1 }
     fillTimes := st.fillTimes ++ [now - o.placedTime] },
   [ExecEvent.fullFill o1.id o1.clientOrderId o1.side o1.originalSize
      avgPrice,
    ExecEvent.requiresRequote "fullFill" o1.clientOrderId])

/-- `ExecutionEngine.handleOrderCanceled(order)`: back to idle, count,
drop from the managed set. -/
def handleOrderCanceled (st : EngineState) (o : ManagedOrder) :
    EngineState × List ExecEvent :=
  ({ st with
     managedOrders := eraseOrder st.managedOrders o.clientOrderId
     stats :=
       { st.stats with cancelledOrders := st.stats.cancelledOrders + 1 } },
   [])

/-- `ExecutionEngine.handleOrderRejected(order, reason)`: move the order
to `ERROR`, bump its retry count and the failure counter; if the new
retry count is still below `maxRetries`, schedule `retryOrder` after
`1000 * retryCount` ms, otherwise drop the order and emit
`orderFailed`. -/
def handleOrderRejected (cfg : ExecutionConfig) (st : EngineState)
    (o : ManagedOrder) (reason : String) : EngineState × List ExecEvent :=
  let o1 := { o with
              state := OrderState.error
              retryCount := o.retryCount + 1 }
  let stats1 := { st.stats with failedOrders := st.stats.failedOrders + 1 }
  if o1.retryCount < cfg.maxRetries then
    ({ st with
       managedOrders := setOrder st.managedOrders o1.clientOrderId o1
       stats := stats1 },
     [ExecEvent.scheduleRetry o1.clientOrderId (1000 * o1.retryCount)])
  else
    ({ st with
       managedOrders := eraseOrder st.managedOrders o1.clientOrderId
       stats := stats1 },
     [ExecEvent.orderFailed o1.clientOrderId reason])

/-- `ExecutionEngine.retryOrder(order)`: back to `PLACING` with fresh
placement time and TTL, and re-emit `placeOrder` for the remaining
size. -/
def retryOrder (cfg : ExecutionConfig) (now : ℚ) (st : EngineState)
    (o : ManagedOrder) : EngineState × List ExecEvent :=
  let o1 := { o with
              state := OrderState.placing
              placedTime := now
              ttlExpiry := now + cfg.ttlMs }
  ({ st with managedOrders := setOrder st.managedOrders o1.clientOrderId o1 },
   [ExecEvent.placeOrder o1.clientOrderId o1.side o1.price o1.remainingSize])

/-- `ExecutionEngine.handleOrderUpdate(orderUpdate)` (lines 892-937):
look the order up by `clientOrderId`; if unknown, log and return with no
change; otherwise record the new filled/remaining quantities and the
update time, and dispatch on `status`. -/
def handleOrderUpdate (cfg : ExecutionConfig) (now : ℚ) (st : EngineState)
    (u : OrderUpdate) : EngineState × List ExecEvent :=
  match lookupOrder st.managedOrders u.clientOrderId with
  | none => (st, [])
  | some mo =>
      let previousFilledSize := mo.filledSize
      let mo1 := { mo with
                   filledSize := u.filledQty.getD 0
                   remainingSize := u.remainingQty.getD 0
                   lastUpdateTime := now }
      let stA :=
        { st with managedOrders := setOrder st.managedOrders u.clientOrderId mo1 }
      match u.status with
      | "NEW" =>
          let mo2 := { mo1 with id := u.orderId, state := OrderState.makerPlaced }
          ({ stA with
             managedOrders := setOrder stA.managedOrders u.clientOrderId mo2 },
           [])
      | "ACCEPTED" =>
          let mo2 := { mo1 with id := u.orderId, state := OrderState.makerPlaced }
          ({ stA with
             managedOrders := setOrder stA.managedOrders u.clientOrderId mo2 },
           [])
      | "PARTIALLY_FILLED" =>
          let newFillSize := mo1.filledSize - previousFilledSize
          if newFillSize > 0 then
            handlePartFill cfg now stA mo1 newFillSize u.avgPrice
          else (stA, [])
      | "FILLED" =>
          handleFullFill now stA mo1 (mo1.filledSize - previousFilledSize)
            u.avgPrice
      | "CANCELED" => handleOrderCanceled stA mo1
      | "REJECTED" => handleOrderRejected cfg stA mo1 u.reason
      | _ => (stA, [])

/-! ## PatientStoikovEventDetector (claim C7)

Source: `src/unnamed/part_007`: `updateOrderBook` (lines 170-175),
`checkTopNExit` (lines 181-212) and `isQuoteInTopN` (lines 214-230). -/

/-- The quote fields held in a patient `QuoteSnapshot` (the detector
reads only `bidPrice` / `askPrice`). -/
structure StoikovQuotesQ where
  reservationPrice : ℚ
  halfSpread : ℚ
  bidPrice : ℚ
  askPrice : ℚ
  bidSize : ℚ
  askSize : ℚ
  skewFactor : ℚ
  regimeAdjustment : ℚ
  timestamp : ℚ
deriving DecidableEq, Repr

/-- An L2 order book: bid levels (descending) and ask levels
(ascending). -/
structure L2Book where
  bids : List BookLevel
  asks : List BookLevel
deriving DecidableEq, Repr

/-- A patient `QuoteSnapshot`. -/
structure PatientQuoteSnapshot where
  quotes : StoikovQuotesQ
  midAtPost : ℚ
  timestamp : ℚ
  levelTtlExpiry : List (String × ℚ)
deriving DecidableEq, Repr

/-- The `PatientEventConfig` fields. -/
structure PatientEventConfig where
  topNThreshold : Nat
  queueAheadThreshold : ℚ
  queueAheadCheckInterval : ℚ
  driftThresholdBps : ℚ
  driftCheckInterval : ℚ
  maxSessionTtl : ℚ
  levelTtl : ℚ
  minRequoteInterval : ℚ
  rateLimitThreshold : ℚ
  jitterMs : ℚ
deriving DecidableEq, Repr

/-- A `PatientEventData` record as passed to `emitEvent`; the free-text
`reason` string is omitted, the `data` payload fields for `topNExit`
(`side`, `price`, `topNThreshold`) are inlined. -/
structure PatientEventData where
  eventType : String
  priority : String
  side : String
  price : ℚ
  topN : Nat
deriving DecidableEq, Repr

/-- The detector state read by the top-N check. -/
structure DetectorState where
  currentQuoteSnapshot : Option PatientQuoteSnapshot
  currentOrderBook : Option L2Book
deriving DecidableEq, Repr

/-- `PatientStoikovEventDetector.isQuoteInTopN(quotePrice, levels, topN)`:
a book side with fewer than `topN` levels counts as safe; otherwise the
price must match one of the first `topN` levels within the absolute
tolerance `0.0001` (both the bid and the ask branch of the source run the
same `levels.slice(0, topN).some(...)` test). -/
def isQuoteInTopN (quotePrice : ℚ) (levels : List BookLevel) (topN : Nat) :
    Bool :=
  if levels.length < topN then true
  else
    let isBid :=
      decide (0 < levels.length) &&
        (match levels.head? with
         | some l0 => decide (quotePrice ≤ l0.price)
         | none => false)
    if isBid then
      (levels.take topN).any fun l => decide (|l.price - quotePrice| < 1/10000)
    else
      (levels.take topN).any fun l => decide (|l.price - quotePrice| < 1/10000)

/-- `PatientStoikovEventDetector.checkTopNExit()`: nothing without a
snapshot and a book; otherwise emit a high-priority `topNExit` for the
bid side and return early if the bid price has left the top N, else the
same check for the ask side. -/
def checkTopNExit (cfg : PatientEventConfig)
    (snap : Option PatientQuoteSnapshot) (book : Option L2Book) :
    List PatientEventData :=
  match snap, book with
  | some s, some b =>
      if !(isQuoteInTopN s.quotes.bidPrice b.bids cfg.topNThreshold) then
        [{ eventType := "topNExit", priority := "high", side := "bid",
           price := s.quotes.bidPrice, topN := cfg.topNThreshold }]
      else if !(isQuoteInTopN s.quotes.askPrice b.asks cfg.topNThreshold) then
        [{ eventType := "topNExit", priority := "high", side := "ask",
           price := s.quotes.askPrice, topN := cfg.topNThreshold }]
      else []
  | _, _ => []

/-- `PatientStoikovEventDetector.updateOrderBook(orderBook)`: store the
book, then run the top-N check immediately. -/
def updateOrderBook (cfg : PatientEventConfig) (ds : DetectorState)
    (book : L2Book) : DetectorState × List PatientEventData :=
  let ds1 := { ds with currentOrderBook := some book }
  (ds1, checkTopNExit cfg ds1.currentQuoteSnapshot ds1.currentOrderBook)

/-! ## StoikovEngine (claims C1, C3, C5)

Source: `src/engines/StoikovEngine.ts`.  These functions use `Math.log`,
`Math.sqrt` and `Math.tanh`, so the model lives in `ℝ`.
`new Date().getUTCHours()` becomes the `hour` parameter and `Date.now()`
the `now` parameter. -/

/-- `timezoneProfile` values. -/
inductive TimezoneProfile where
  | asia
  | eu
  | us
  | global
deriving DecidableEq, Repr

/-- The `StoikovParams` record. -/
structure StoikovParams where
  gamma : ℝ
  volatilityWindow : ℝ
  intensityWindow : ℝ
  maxInventoryPct : ℝ
  obiWeight : ℝ
  micropriceBias : Bool
  topNDepth : Nat
  postOnlyOffset : ℝ
  ttlMs : ℝ
  repostMs : ℝ
  ladderLevels : ℝ
  alphaSizeRatio : ℝ
  driftCutBps : ℝ
  sessionDDLimitPct : ℝ
  maxConsecutiveFails : Nat
  timezoneProfile : TimezoneProfile
  volRegimeScaler : ℝ

/-- The conditions enforced by `StoikovEngine.validateParams` (a fatal
error at construction when violated). -/
def validStoikovParams (p : StoikovParams) : Prop :=
  0 < p.gamma ∧ p.gamma ≤ 5 ∧
  1000 ≤ p.volatilityWindow ∧ p.volatilityWindow ≤ 600000 ∧
  0 < p.maxInventoryPct ∧ p.maxInventoryPct ≤ 50 ∧
  100 ≤ p.ttlMs ∧ p.ttlMs ≤ 5000 ∧
  50 ≤ p.repostMs ∧ p.repostMs ≤ 1000

/-- The `MarketState` record. -/
structure MarketState where
  mid : ℝ
  microprice : ℝ
  spread : ℝ
  volatility : ℝ
  intensity : ℝ
  obi : ℝ
  topBidDepth : ℝ
  topAskDepth : ℝ
  timestamp : ℝ

/-- The `InventoryState` record (ℝ version used by the engine). -/
structure InventoryState where
  position : ℝ
  navPct : ℝ
  entryPrice : ℝ
  unrealizedPnl : ℝ
  drift : ℝ

/-- The `StoikovQuotes` record. -/
structure StoikovQuotes where
  reservationPrice : ℝ
  halfSpread : ℝ
  bidPrice : ℝ
  askPrice : ℝ
  bidSize : ℝ
  askSize : ℝ
  skewFactor : ℝ
  regimeAdjustment : ℝ
  timestamp : ℝ

/-- `StoikovEngine.calculateReservationPrice(market, inventory)`:
microprice (or mid) plus the Stoikov inventory adjustment
`-γ·σ²·q`. -/
noncomputable def calculateReservationPrice (p : StoikovParams)
    (m : MarketState) (inv : InventoryState) : ℝ :=
  (if p.micropriceBias then m.microprice else m.mid) +
    (-p.gamma * m.volatility * m.volatility * inv.position)

/-- `StoikovEngine.calculateOptimalSpread(market, inventory)` (the
`inventory` argument is unused in the source too):
`δ = γσ²/(2k) + ln(1 + γ/k)/γ` with `k = max(intensity, 0.1)`, floored by
`max(0.3·spread, postOnlyOffset·0.0001)`, halved. -/
noncomputable def calculateOptimalSpread (p : StoikovParams)
    (m : MarketState) (_inv : InventoryState) : ℝ :=
  let k := max m.intensity 0.1
  let term1 := p.gamma * m.volatility * m.volatility / (2 * k)
  let term2 := Real.log (1 + p.gamma / k) / p.gamma
  let optimalSpread := term1 + term2
  let minSpread := max (m.spread * 0.3) (p.postOnlyOffset * 0.0001)
  max optimalSpread minSpread / 2

/-- `StoikovEngine.calculateInventorySkew(inventory)` (lines 272-284),
modelled verbatim: note that the source line
`return skew * inventory.position > 0 ? 1 : -1;` parses as
`(skew * position > 0) ? 1 : -1`, so the branch value is `1` or `-1`. -/
noncomputable def calculateInventorySkew (p : StoikovParams)
    (inv : InventoryState) : ℝ :=
  if inv.position = 0 then 0
  else
    let maxInventory := p.maxInventoryPct / 100
    let inventoryRatio := inv.navPct / 100 / maxInventory
    let skewIntensity : ℝ := 2.0
    let skew := -Real.tanh (inventoryRatio * skewIntensity) * 0.001
    if skew * inv.position > 0 then 1 else -1

/-- `StoikovEngine.getTimezoneMultiplier(profile)` with the UTC hour
passed explicitly. -/
noncomputable def getTimezoneMultiplier (profile : TimezoneProfile)
    (hour : ℕ) : ℝ :=
  match profile with
  | TimezoneProfile.asia => if 0 ≤ hour ∧ hour ≤ 8 then 1.0 else 1.2
  | TimezoneProfile.eu => if 7 ≤ hour ∧ hour ≤ 16 then 1.0 else 1.2
  | TimezoneProfile.us => if 13 ≤ hour ∧ hour ≤ 22 then 1.0 else 1.2
  | TimezoneProfile.global => 1.0

/-- `StoikovEngine.calculateRegimeAdjustment(market)`:
`(1 + (σ/0.3 − 1)·volRegimeScaler) ·` timezone multiplier. -/
noncomputable def calculateRegimeAdjustment (p : StoikovParams)
    (m : MarketState) (hour : ℕ) : ℝ :=
  let avgVolatility : ℝ := 0.3
  let volRatio := m.volatility / avgVolatility
  let regimeMultiplier := 1.0 + (volRatio - 1.0) * p.volRegimeScaler
  regimeMultiplier * getTimezoneMultiplier p.timezoneProfile hour

/-- `StoikovEngine.calculateOrderSizes(market, inventory)` (the `market`
argument is unused in the source body). -/
noncomputable def calculateOrderSizes (p : StoikovParams)
    (_m : MarketState) (inv : InventoryState) : ℝ × ℝ :=
  let baseSize := 100 * p.alphaSizeRatio
  let maxInventory := p.maxInventoryPct / 100
  let inventoryRatio := |inv.navPct / 100| / maxInventory
  let sizeMultiplier := max 0.1 (1.0 - inventoryRatio * 0.5)
  let bidSize := baseSize * sizeMultiplier
  let askSize := baseSize * sizeMultiplier
  let skewed :=
    if inv.position > 0 then (bidSize * 0.7, askSize * 1.3)
    else if inv.position < 0 then (bidSize * 1.3, askSize * 0.7)
    else (bidSize, askSize)
  (skewed.1 / p.ladderLevels, skewed.2 / p.ladderLevels)

/-- `StoikovEngine.calculateQuotes()` on the non-null path (both
`currentMarketState` and `currentInventory` present). -/
noncomputable def calculateQuotes (p : StoikovParams) (m : MarketState)
    (inv : InventoryState) (hour : ℕ) (now : ℝ) : StoikovQuotes :=
  let reservationPrice := calculateReservationPrice p m inv
  let halfSpread := calculateOptimalSpread p m inv
  let skewFactor := calculateInventorySkew p inv
  let regimeAdjustment := calculateRegimeAdjustment p m hour
  let adjustedHalfSpread := halfSpread * regimeAdjustment
  let skewedReservationPrice := reservationPrice + skewFactor
  let bidPrice := skewedReservationPrice - adjustedHalfSpread
  let askPrice := skewedReservationPrice + adjustedHalfSpread
  let sizes := calculateOrderSizes p m inv
  { reservationPrice := skewedReservationPrice
    halfSpread := adjustedHalfSpread
    bidPrice := bidPrice
    askPrice := askPrice
    bidSize := sizes.1
    askSize := sizes.2
    skewFactor := skewFactor
    regimeAdjustment := regimeAdjustment
    timestamp := now }

/-- `StoikovEngine.calculateQuotes()` including the null guard: no quote
without both a market state and an inventory state. -/
noncomputable def calculateQuotesOpt (p : StoikovParams)
    (m : Option MarketState) (inv : Option InventoryState) (hour : ℕ)
    (now : ℝ) : Option StoikovQuotes :=
  match m, inv with
  | some m, some inv => some (calculateQuotes p m inv hour now)
  | _, _ => none

/-- The list of squared log-returns `(ln pᵢ/pᵢ₋₁)²` of consecutive
prices, as built by the `for` loop of `updateVolatility`. -/
noncomputable def squaredLogReturns : List ℝ → List ℝ
  | p1 :: p2 :: rest =>
      (Real.log (p2 / p1) * Real.log (p2 / p1)) :: squaredLogReturns (p2 :: rest)
  | _ => []

/-- The EWMA recursion `V ← α·r² + (1−α)·V` of `updateVolatility`,
seeded with the first squared return. -/
noncomputable def ewmaVariance (alpha v0 : ℝ) (rest : List ℝ) : ℝ :=
  rest.foldl (fun v r => alpha * r + (1 - alpha) * v) v0

/-- `StoikovEngine.updateVolatility()` as a function of the price history
(mids only; the window has already pruned old entries): `none` when fewer
than two prices, otherwise
`sqrt(ewmaVar * sqrt(252·24·60·60))` with
`α = 2/(volatilityWindow/1000 + 1)`. -/
noncomputable def updateVolatility (volatilityWindow : ℝ)
    (priceHistory : List ℝ) : Option ℝ :=
  if priceHistory.length < 2 then none
  else
    match squaredLogReturns priceHistory with
    | [] => none
    | r0 :: rs =>
        let alpha := 2 / (volatilityWindow / 1000 + 1)
        let ewmaVar := ewmaVariance alpha r0 rs
        some (Real.sqrt (ewmaVar * Real.sqrt (252 * 24 * 60 * 60)))

/-- The annualisation the spec sentence prescribes (reference for C3):
`σ = sqrt(V · 252·86400)`. -/
noncomputable def specAnnualisedVol (ewmaVar : ℝ) : ℝ :=
  Real.sqrt (ewmaVar * (252 * 86400))

/-! ## Concrete states used by the counterexample / code-bug theorems -/

/-- A parameter set accepted by `validateParams` (γ = 0.6, 30 s
volatility window, 5 % inventory cap, global profile). -/
noncomputable def pC1 : StoikovParams :=
  { gamma := 0.6
    volatilityWindow := 30000
    intensityWindow := 60000
    maxInventoryPct := 5
    obiWeight := 0
    micropriceBias := false
    topNDepth := 5
    postOnlyOffset := 1
    ttlMs := 800
    repostMs := 200
    ladderLevels := 1
    alphaSizeRatio := 1
    driftCutBps := 5
    sessionDDLimitPct := 1/2
    maxConsecutiveFails := 10
    timezoneProfile := TimezoneProfile.global
    volRegimeScaler := 1 }

/-- Inventory exactly at the cap: position 1 unit, `navPct = 5` against
`maxInventoryPct = 5`, so the claim ratio is ρ = 1. -/
noncomputable def iC1 : InventoryState :=
  { position := 1, navPct := 5, entryPrice := 100, unrealizedPnl := 0,
    drift := 0 }

/-- Valid parameters with γ = 1 and `volRegimeScaler = 2` (the scaler is
not validated) used for the C5 counterexample. -/
noncomputable def pC5 : StoikovParams :=
  { pC1 with gamma := 1, volRegimeScaler := 2 }

/-- Valid parameters with γ = 1 and `volRegimeScaler = 0`, giving regime
adjustment 1, used for the C5 witness. -/
noncomputable def pC5w : StoikovParams :=
  { pC1 with gamma := 1, volRegimeScaler := 0 }

/-- A quiet market: mid 100, spread 1, zero measured volatility,
intensity 10 trades/s. -/
noncomputable def mC5 : MarketState :=
  { mid := 100, microprice := 100, spread := 1, volatility := 0,
    intensity := 10, obi := 0, topBidDepth := 10, topAskDepth := 10,
    timestamp := 0 }

/-- A flat inventory. -/
noncomputable def iC5 : InventoryState :=
  { position := 0, navPct := 0, entryPrice := 0, unrealizedPnl := 0,
    drift := 0 }

/-- An inventory with position 1 base unit for the C2 failing input. -/
def iC2 : InventoryStateQ :=
  { position := 1, navPct := 5, entryPrice := 100, unrealizedPnl := 0,
    drift := 0 }

/-- Patient-event configuration with top-N threshold 1 (valid per
`validateConfig`). -/
def cfgC7 : PatientEventConfig :=
  { topNThreshold := 1
    queueAheadThreshold := 1/2
    queueAheadCheckInterval := 500
    driftThresholdBps := 5
    driftCheckInterval := 1000
    maxSessionTtl := 60000
    levelTtl := 5000
    minRequoteInterval := 300
    rateLimitThreshold := 20
    jitterMs := 20 }

/-- A snapshot whose bid (99) and ask (102) have both left the top-1 of
the book below. -/
def snapC7 : PatientQuoteSnapshot :=
  { quotes :=
      { reservationPrice := 201/2, halfSpread := 3/2, bidPrice := 99,
        askPrice := 102, bidSize := 1, askSize := 1, skewFactor := 0,
        regimeAdjustment := 1, timestamp := 0 }
    midAtPost := 201/2
    timestamp := 0
    levelTtlExpiry := [] }

/-- A book whose top bid is 100 and top ask is 101 — more than the
0.0001 tolerance away from both snapshot prices. -/
def bookC7 : L2Book :=
  { bids := [{ price := 100, size := 1 }], asks := [{ price := 101, size := 1 }] }

/-- The detector state holding `snapC7` before the book update. -/
def dsC7 : DetectorState :=
  { currentQuoteSnapshot := some snapC7, currentOrderBook := none }

/-- The gate state for the C9 counterexample: emergency-stopped with a
low risk level. -/
def gateC9 : RiskGateState :=
  { isEmergencyStopped := true, isNewsStopped := false,
    isInCooldown := false, riskLevel := RiskLevel.low }

/-- A managed order with no retries yet, known to `engC8` under client
id `"b0"`. -/
def ordC8 : ManagedOrder :=
  { id := "", clientOrderId := "b0", side := Side.buy, price := 100,
    originalSize := 1, filledSize := 0, remainingSize := 1,
    state := OrderState.placing, placedTime := 0, lastUpdateTime := 0,
    ttlExpiry := 800, retryCount := 0, ladderLevel := 0,
    isPostOnly := true }

/-- Fresh statistics. -/
def statsZero : ExecutionStats :=
  { totalOrders := 0, filledOrders := 0, partFills := 0,
    cancelledOrders := 0, failedOrders := 0, averageFillTime := 0,
    repostCount := 0, flattenEvents := 0, fillRatio := 0,
    avgQueueTime := 0, rejectionRate := 0 }

/-- Execution configuration with `maxRetries = 3`. -/
def cfgC8 : ExecutionConfig :=
  { postOnlyOffset := 1, ttlMs := 800, repostMs := 200, maxRetries := 3,
    ladderLevels := 1, partFillThresholdPct := 50,
    queueAheadThreshold := 1/2, priceToleranceTicks := 2,
    flattenTimeoutMs := 5000, cooldownMs := 30000,
    fillLatencyTarget := 1000, repostRateLimit := 10 }

/-- An engine managing exactly `ordC8`. -/
def engC8 : EngineState :=
  { managedOrders := [("b0", ordC8)], lastRepostTime := 0,
    repostQueue := [], currentState := OrderState.idle,
    stats := statsZero, fillTimes := [], queueTimes := [] }

/-- An engine managing no orders (for the C10 witness). -/
def engC10 : EngineState :=
  { managedOrders := [], lastRepostTime := 0, repostQueue := [],
    currentState := OrderState.idle, stats := statsZero, fillTimes := [],
    queueTimes := [] }

/-- An order update for a client id the engine does not manage. -/
def updC10 : OrderUpdate :=
  { clientOrderId := "zz", status := "FILLED", orderId := "e1",
    filledQty := some 1, remainingQty := some 0, avgPrice := 100,
    reason := "" }

/-- PnL limits for the C6 witness. -/
def limC6 : DDLimits :=
  { sessionDDLimitPct := 1/2, dailyDDLimitPct := 1 }

/-- A fresh `RiskManager` PnL state (all fields start at 0 in the
class). -/
def pnlZero : RiskPnlState :=
  { sessionPnL := 0, dailyPnL := 0, sessionHighWaterMark := 0,
    dailyHighWaterMark := 0, sessionDDPct := 0, dailyDDPct := 0 }

/-! ## Helper lemmas -/

/-- Replacing the value stored under a present key is seen by lookup. -/
lemma lookupOrder_setOrder (m : List (String × ManagedOrder)) (cid : String)
    (o mo : ManagedOrder) (h : lookupOrder m cid = some mo) :
    lookupOrder (setOrder m cid o) cid = some o := by
  induction m with
  | nil => simp [lookupOrder] at h
  | cons p rest ih =>
      obtain ⟨k, v⟩ := p
      by_cases hk : k = cid
      · subst hk
        simp [setOrder, lookupOrder]
      · simp only [lookupOrder, if_neg hk] at h
        simp only [setOrder, if_neg hk, lookupOrder]
        exact ih h

/-- An erased key is gone from lookup. -/
lemma lookupOrder_eraseOrder (m : List (String × ManagedOrder))
    (cid : String) : lookupOrder (eraseOrder m cid) cid = none := by
  induction m with
  | nil => rfl
  | cons p rest ih =>
      obtain ⟨k, v⟩ := p
      by_cases hk : k = cid
      · simp only [eraseOrder, if_pos hk]
        exact ih
      · simp only [eraseOrder, if_neg hk, lookupOrder]
        exact ih

/-- A failed spec-side walk means the book ran out: either there were no
levels at all, or the whole book notional is below the remaining
notional. -/
lemma specImpactWalk_none (entries : List BookLevel) :
    ∀ r : ℚ, specImpactWalk entries r = none →
      entries = [] ∨ totalNotional entries < r := by
  induction entries with
  | nil => intro r _; exact Or.inl rfl
  | cons e rest ih =>
      intro r h
      simp only [specImpactWalk] at h
      by_cases hle : r ≤ e.price * e.size
      · rw [if_pos hle] at h
        exact absurd h (by simp)
      · rw [if_neg hle] at h
        have hrest : specImpactWalk rest (r - e.price * e.size) = none := by
          cases hw : specImpactWalk rest (r - e.price * e.size) with
          | none => rfl
          | some x => rw [hw] at h; exact absurd h (by simp)
        refine Or.inr ?_
        rcases ih (r - e.price * e.size) hrest with hnil | hlt
        · subst hnil
          simp only [totalNotional, List.map, List.sum_cons, List.sum_nil,
            add_zero]
          linarith [not_le.mp hle]
        · simp only [totalNotional, List.map, List.sum_cons] at hlt ⊢
          linarith

/-- When the notional is covered by the book, the source walk agrees with
the spec-side walk. -/
lemma impactWalk_eq_spec (entries : List BookLevel) :
    ∀ r : ℚ, r ≤ totalNotional entries →
      impactWalk entries r = (specImpactWalk entries r).getD (0, 0) := by
  induction entries with
  | nil => intro r _; rfl
  | cons e rest ih =>
      intro r hr
      simp only [impactWalk, specImpactWalk]
      by_cases hle : r ≤ e.price * e.size
      · rw [if_pos hle, if_pos hle]; rfl
      · rw [if_neg hle, if_neg hle]
        have hr2 : r - e.price * e.size ≤ totalNotional rest := by
          simp only [totalNotional, List.map, List.sum_cons] at hr
          simp only [totalNotional]
          linarith
        cases hw : specImpactWalk rest (r - e.price * e.size) with
        | none =>
            rcases specImpactWalk_none rest _ hw with hnil | hlt
            · subst hnil
              simp only [totalNotional, List.map_nil, List.sum_nil] at hr2
              exact absurd (by linarith : r ≤ e.price * e.size) hle
            · exact absurd hr2 (not_le.mpr hlt)
        | some x =>
            have := ih (r - e.price * e.size) hr2
            rw [hw] at this
            simp only [Option.getD_some] at this
            rw [this]
            simp [Option.map_some]

/-- When the book cannot absorb the notional, the source walk consumes
the whole book. -/
lemma impactWalk_overflow (entries : List BookLevel)
    (hpos : ∀ e ∈ entries, 0 ≤ e.price * e.size) :
    ∀ r : ℚ, totalNotional entries < r →
      impactWalk entries r = (totalSize entries, totalNotional entries) := by
  induction entries with
  | nil => intro r _; rfl
  | cons e rest ih =>
      intro r hr
      have hrestpos : ∀ x ∈ rest, 0 ≤ x.price * x.size := by
        intro x hx; exact hpos x (List.mem_cons_of_mem _ hx)
      have hrestsum : (0:ℚ) ≤ totalNotional rest :=
        List.sum_nonneg (by
          intro x hx
          simp only [List.mem_map] at hx
          obtain ⟨l, hl, rfl⟩ := hx
          exact hrestpos l hl)
      simp only [totalNotional, List.map, List.sum_cons] at hr
      have hgt : ¬ r ≤ e.price * e.size := by
        push_neg
        calc e.price * e.size ≤ e.price * e.size + totalNotional rest := by
              simpa [totalNotional] using hrestsum
          _ < r := by simpa [totalNotional] using hr
      simp only [impactWalk, if_neg hgt]
      have := ih hrestpos (r - e.price * e.size)
        (by simp only [totalNotional]; linarith)
      rw [this]
      simp [totalSize, totalNotional]

/-! ## Claim theorems -/

/-- C2: the claim says `StoikovBot.cleanup` flattens whenever
`|position| ≥ 1e-3`.  In the source the guard is inverted
(`currentInventory && !currentInventory.position`), so `flattenPosition`
is reached only when the position is exactly 0 — and then it refuses to
act because `|position| < 0.001`.  Hence shutdown never places a flatten
order, although `flattenPosition` itself would place the market order the
claim describes (second conjunct, at position 1). -/
theorem c2_cleanup_never_flattens :
    (∀ inv : Option InventoryStateQ, cleanupFlattenOrders inv = []) ∧
    flattenPositionOrders (some iC2) =
      [{ side := Side.sell, amount := 1 }] := by
  constructor
  · intro inv
    match inv with
    | none => rfl
    | some i =>
        simp only [cleanupFlattenOrders]
        by_cases h : i.position = 0
        · rw [if_pos h]
          simp only [flattenPositionOrders, h]
          norm_num
        · rw [if_neg h]
  · norm_num [flattenPositionOrders, iC2]

/-- C4 counterexample: on the one-level book `[(price 1, size 1)]` with
notional 2 the book cannot absorb the order (total notional 1 < 2), yet
`calculateMarketImpact` returns 1 — the average price of the filled
portion — and not the 0 the claim requires. -/
theorem c4_impact_counterexample :
    totalNotional [{ price := 1, size := 1 }] < 2 ∧
    calculateMarketImpact [{ price := 1, size := 1 }] 2 = 1 ∧
    specMarketImpact [{ price := 1, size := 1 }] 2 = 0 ∧
    (1 : ℚ) ≠ 0 := by
  norm_num [totalNotional, calculateMarketImpact, impactWalk,
    specMarketImpact, specImpactWalk]

/-- C4 amended: for a book of positive levels, the walk agrees with the
spec walk whenever the book absorbs the notional, and when it cannot
absorb it the function returns the volume-weighted average price of the
entire book — a positive value — instead of 0. -/
theorem c4_impact_amended (entries : List BookLevel) (q : ℚ)
    (hpos : ∀ e ∈ entries, 0 < e.price ∧ 0 < e.size) :
    (q ≤ totalNotional entries →
      calculateMarketImpact entries q = specMarketImpact entries q) ∧
    (totalNotional entries < q → entries ≠ [] →
      calculateMarketImpact entries q =
        totalNotional entries / totalSize entries ∧
      0 < calculateMarketImpact entries q) := by
  constructor
  · intro hq
    have hw := impactWalk_eq_spec entries q hq
    simp only [calculateMarketImpact, specMarketImpact]
    cases hs : specImpactWalk entries q with
    | none =>
        rw [hs] at hw
        simp only [Option.getD_none] at hw
        rw [hw]
        norm_num
    | some x =>
        rw [hs] at hw
        simp only [Option.getD_some] at hw
        rw [hw]
  · intro hq hne
    have hpos' : ∀ e ∈ entries, (0:ℚ) ≤ e.price * e.size := by
      intro e he
      exact (mul_pos (hpos e he).1 (hpos e he).2).le
    have hw := impactWalk_overflow entries hpos' q hq
    have hsize : 0 < totalSize entries := by
      obtain ⟨e, rest, rfl⟩ := List.exists_cons_of_ne_nil hne
      have he := hpos e (List.mem_cons_self e rest)
      have : (0:ℚ) ≤ (rest.map (fun l => l.size)).sum :=
        List.sum_nonneg (by
          intro x hx
          simp only [List.mem_map] at hx
          obtain ⟨l, hl, rfl⟩ := hx
          exact (hpos l (List.mem_cons_of_mem _ hl)).2.le)
      simp only [totalSize, List.map, List.sum_cons]
      linarith [he.2]
    have hnot : 0 < totalNotional entries := by
      obtain ⟨e, rest, rfl⟩ := List.exists_cons_of_ne_nil hne
      have he := hpos e (List.mem_cons_self e rest)
      have : (0:ℚ) ≤ (rest.map (fun l => l.price * l.size)).sum :=
        List.sum_nonneg (by
          intro x hx
          simp only [List.mem_map] at hx
          obtain ⟨l, hl, rfl⟩ := hx
          exact hpos' l (List.mem_cons_of_mem _ hl))
      simp only [totalNotional, List.map, List.sum_cons]
      have := mul_pos he.1 he.2
      linarith
    constructor
    · simp only [calculateMarketImpact, hw]
      rw [if_neg (by exact ne_of_gt hsize)]
    · simp only [calculateMarketImpact, hw]
      rw [if_neg (by exact ne_of_gt hsize)]
      exact div_pos hnot hsize

/-- C4 witness: the amended theorem applied to the book `[(2, 3)]` and
notional 20 (total notional 6 < 20): the metric is `6 / 3 = 2 > 0`. -/
theorem c4_impact_amended_witness :
    (∀ e ∈ [({ price := 2, size := 3 } : BookLevel)],
        0 < e.price ∧ 0 < e.size) ∧
    calculateMarketImpact [{ price := 2, size := 3 }] 20 =
      totalNotional [{ price := 2, size := 3 }] /
        totalSize [{ price := 2, size := 3 }] ∧
    0 < calculateMarketImpact [{ price := 2, size := 3 }] 20 :=
  ⟨by norm_num,
   ((c4_impact_amended [{ price := 2, size := 3 }] 20 (by norm_num)).2
      (by norm_num [totalNotional]) (by norm_num)).1,
   ((c4_impact_amended [{ price := 2, size := 3 }] 20 (by norm_num)).2
      (by norm_num [totalNotional]) (by norm_num)).2⟩

/-- C6: after `updatePnL`, the session high-water mark is the maximum of
the previous mark and the reported session PnL (running maximum seeded
at 0), and whenever it is nonzero `session_dd_pct` equals
`max(0, (HWM − pnl)/|HWM|·100)`. -/
theorem c6_update_pnl_drawdown (lim : DDLimits) (s : RiskPnlState)
    (p d : ℚ) (_h : max s.sessionHighWaterMark p ≠ 0) :
    (updatePnL lim s p d).1.sessionPnL = p ∧
    (updatePnL lim s p d).1.sessionHighWaterMark =
      max s.sessionHighWaterMark p ∧
    (updatePnL lim s p d).1.sessionDDPct =
      max 0 ((max s.sessionHighWaterMark p - p) /
        |max s.sessionHighWaterMark p| * 100) := by
  refine ⟨rfl, rfl, rfl⟩

/-- C6 witness: the theorem at the fresh state with both PnLs reported
as 5: the high-water mark becomes `max 0 5 = 5 ≠ 0` and the drawdown is
as the formula states. -/
theorem c6_update_pnl_drawdown_witness :
    max pnlZero.sessionHighWaterMark 5 ≠ 0 ∧
    (updatePnL limC6 pnlZero 5 5).1.sessionDDPct =
      max 0 ((max pnlZero.sessionHighWaterMark 5 - 5) /
        |max pnlZero.sessionHighWaterMark 5| * 100) :=
  ⟨by norm_num [pnlZero],
   (c6_update_pnl_drawdown limC6 pnlZero 5 5 (by norm_num [pnlZero])).2.2⟩

/-- C7 counterexample: with top-N threshold 1, snapshot bid 99 / ask 102
against a book with top bid 100 and top ask 101, both live prices are
outside the top N, but the book update raises only the bid-side
`topNExit` — the early `return` of `checkTopNExit` suppresses the
ask-side event the claim requires. -/
theorem c7_topn_exit_counterexample :
    isQuoteInTopN snapC7.quotes.askPrice bookC7.asks cfgC7.topNThreshold =
      false ∧
    (updateOrderBook cfgC7 dsC7 bookC7).2 =
      [{ eventType := "topNExit", priority := "high", side := "bid",
         price := 99, topN := 1 }] := by
  constructor
  · norm_num [isQuoteInTopN, snapC7, bookC7, cfgC7]
  · norm_num [updateOrderBook, checkTopNExit, isQuoteInTopN, snapC7,
      bookC7, cfgC7, dsC7]

/-- C7 amended: on each book update the detector raises at most one
`topNExit` (priority high): for the bid side when the bid price has left
the top N (within the fixed `0.0001` tolerance, sides with fewer than N
levels counting as inside), otherwise for the ask side under the same
test, and nothing when both are inside. -/
theorem c7_topn_exit_amended (cfg : PatientEventConfig)
    (s : PatientQuoteSnapshot) (ob : Option L2Book) (b : L2Book) :
    (updateOrderBook cfg
        { currentQuoteSnapshot := some s, currentOrderBook := ob } b).2 =
      (if isQuoteInTopN s.quotes.bidPrice b.bids cfg.topNThreshold = false
       then
        [{ eventType := "topNExit", priority := "high", side := "bid",
           price := s.quotes.bidPrice, topN := cfg.topNThreshold }]
       else if isQuoteInTopN s.quotes.askPrice b.asks cfg.topNThreshold =
          false then
        [{ eventType := "topNExit", priority := "high", side := "ask",
           price := s.quotes.askPrice, topN := cfg.topNThreshold }]
       else []) ∧
    ((updateOrderBook cfg
        { currentQuoteSnapshot := some s, currentOrderBook := ob } b).2).length ≤ 1 := by
  have hmain :
      (updateOrderBook cfg
          { currentQuoteSnapshot := some s, currentOrderBook := ob } b).2 =
        (if isQuoteInTopN s.quotes.bidPrice b.bids cfg.topNThreshold = false
         then
          [{ eventType := "topNExit", priority := "high", side := "bid",
             price := s.quotes.bidPrice, topN := cfg.topNThreshold }]
         else if isQuoteInTopN s.quotes.askPrice b.asks cfg.topNThreshold =
            false then
          [{ eventType := "topNExit", priority := "high", side := "ask",
             price := s.quotes.askPrice, topN := cfg.topNThreshold }]
         else []) := by
    simp only [updateOrderBook, checkTopNExit]
    cases hb : isQuoteInTopN s.quotes.bidPrice b.bids cfg.topNThreshold <;>
      cases ha : isQuoteInTopN s.quotes.askPrice b.asks cfg.topNThreshold <;>
      simp [hb, ha]
  refine ⟨hmain, ?_⟩
  rw [hmain]
  by_cases hb :
      isQuoteInTopN s.quotes.bidPrice b.bids cfg.topNThreshold = false
  · simp [hb]
  · by_cases ha :
        isQuoteInTopN s.quotes.askPrice b.asks cfg.topNThreshold = false
    · simp [hb, ha]
    · simp [hb, ha]

/-- C8: on a rejection the order is moved to `ERROR` with its retry count
bumped and the failure counter incremented; while the new retry count is
below `maxRetries` a retry is scheduled with backoff `1000·retry_count`
ms and the order stays managed; once retries are exhausted the order is
removed from the managed set and `orderFailed` is emitted. -/
theorem c8_rejected_retry_backoff (cfg : ExecutionConfig)
    (st : EngineState) (o : ManagedOrder) (reason : String)
    (h : lookupOrder st.managedOrders o.clientOrderId = some o) :
    (handleOrderRejected cfg st o reason).1.stats.failedOrders =
      st.stats.failedOrders + 1 ∧
    (o.retryCount + 1 < cfg.maxRetries →
      lookupOrder (handleOrderRejected cfg st o reason).1.managedOrders
          o.clientOrderId =
        some { o with state := OrderState.error,
                      retryCount := o.retryCount + 1 } ∧
      (handleOrderRejected cfg st o reason).2 =
        [ExecEvent.scheduleRetry o.clientOrderId
          (1000 * ((o.retryCount : ℚ) + 1))]) ∧
    (¬ o.retryCount + 1 < cfg.maxRetries →
      lookupOrder (handleOrderRejected cfg st o reason).1.managedOrders
          o.clientOrderId = none ∧
      (handleOrderRejected cfg st o reason).2 =
        [ExecEvent.orderFailed o.clientOrderId reason]) := by
  by_cases hr : o.retryCount + 1 < cfg.maxRetries
  · refine ⟨?_, fun _ => ⟨?_, ?_⟩, fun hc => absurd hr hc⟩
    · simp [handleOrderRejected, hr]
    · simp only [handleOrderRejected, hr, if_pos]
      exact lookupOrder_setOrder _ _ _ _ h
    · simp only [handleOrderRejected, hr, if_pos]
      push_cast
      ring_nf
  · refine ⟨?_, fun hc => absurd hc hr, fun _ => ⟨?_, ?_⟩⟩
    · simp [handleOrderRejected, hr]
    · simp only [handleOrderRejected, hr, if_neg, if_false]
      exact lookupOrder_eraseOrder _ _
    · simp [handleOrderRejected, hr]

/-- C8 witness: the theorem at `engC8` (one managed order `"b0"` with
retry count 0, `maxRetries = 3`): the order is kept in the `ERROR` state
with retry count 1 and a retry is scheduled after 1000 ms. -/
theorem c8_rejected_retry_backoff_witness :
    lookupOrder
        (handleOrderRejected cfgC8 engC8 ordC8 "postOnlyReject").1.managedOrders
        "b0" =
      some { ordC8 with state := OrderState.error, retryCount := 1 } ∧
    (handleOrderRejected cfgC8 engC8 ordC8 "postOnlyReject").2 =
      [ExecEvent.scheduleRetry "b0" 1000] := by
  have h :=
    (c8_rejected_retry_backoff cfgC8 engC8 ordC8 "postOnlyReject"
        (by rfl)).2.1 (by norm_num [ordC8, cfgC8])
  refine ⟨?_, ?_⟩
  · simpa [ordC8] using h.1
  · rw [h.2]
    norm_num [ordC8]

/-- C9 counterexample: in a state where `canTrade()` is false (emergency
stop) but the risk level is `low`, `getSizeMultiplier` returns 0, not
the 1.0 the claim assigns to non-critical/high/medium levels. -/
theorem c9_size_multiplier_counterexample :
    canTrade gateC9 = false ∧
    getSizeMultiplier gateC9 = 0 ∧
    specSizeMultiplier gateC9.riskLevel = 1 ∧
    (0 : ℚ) ≠ 1 := by decide

/-- C9 amended: `getSizeMultiplier` follows the spec table
(critical 0, high 0.5, medium 0.8, else 1.0) whenever `canTrade()` is
true, and returns 0 whenever `canTrade()` is false. -/
theorem c9_size_multiplier_amended (s : RiskGateState) :
    getSizeMultiplier s =
      if canTrade s then specSizeMultiplier s.riskLevel else 0 := by
  obtain ⟨es, ns, cd, lvl⟩ := s
  cases es <;> cases ns <;> cases cd <;> cases lvl <;> rfl

/-- C10: an order update whose `clientOrderId` is not in the managed set
leaves the whole engine state unchanged and emits nothing. -/
theorem c10_unknown_update_no_change (cfg : ExecutionConfig) (now : ℚ)
    (st : EngineState) (u : OrderUpdate)
    (h : lookupOrder st.managedOrders u.clientOrderId = none) :
    handleOrderUpdate cfg now st u = (st, []) := by
  simp [handleOrderUpdate, h]

/-- C10 witness: the theorem at an engine with no managed orders and a
`FILLED` update for the unknown id `"zz"`. -/
theorem c10_unknown_update_no_change_witness :
    lookupOrder engC10.managedOrders updC10.clientOrderId = none ∧
    handleOrderUpdate cfgC8 5 engC10 updC10 = (engC10, []) :=
  ⟨by decide, c10_unknown_update_no_change cfgC8 5 engC10 updC10 (by decide)⟩

/-- C1: at position 1 with `navPct = 5` against `maxInventoryPct = 5`
(ρ = 1, validated parameters), `calculateInventorySkew` returns −1: the
source line `return skew * inventory.position > 0 ? 1 : -1;` parses as
`(skew·q > 0) ? 1 : −1`, so the returned value is neither
`−tanh(2·ρ)·0.001` nor within the claimed 10 bp bound. -/
theorem c1_inventory_skew_returns_sign :
    validStoikovParams pC1 ∧
    calculateInventorySkew pC1 iC1 = -1 ∧
    calculateInventorySkew pC1 iC1 ≠
      -Real.tanh (2 * (iC1.navPct / pC1.maxInventoryPct)) * 0.001 ∧
    ¬ |calculateInventorySkew pC1 iC1| ≤ 0.001 := by
  have htanh_pos : 0 < Real.tanh 2 := by
    rw [Real.tanh_eq_sinh_div_cosh]
    exact div_pos (Real.sinh_pos_iff.mpr (by norm_num)) (Real.cosh_pos 2)
  have htanh_lt : Real.tanh 2 < 1 := by
    rw [Real.tanh_eq_sinh_div_cosh, div_lt_one (Real.cosh_pos 2)]
    nlinarith [Real.cosh_sub_sinh 2, Real.exp_pos (-2:ℝ)]
  have hval : calculateInventorySkew pC1 iC1 = -1 := by
    simp only [calculateInventorySkew, pC1, iC1]
    rw [if_neg (by norm_num)]
    have hratio : (5:ℝ) / 100 / (5 / 100) * 2.0 = 2 := by norm_num
    have hcond : ¬ (-Real.tanh ((5:ℝ) / 100 / (5 / 100) * 2.0) *
        1e-3 * 1 > 0) := by
      rw [hratio]
      nlinarith
    rw [if_neg hcond]
  refine ⟨?_, hval, ?_, ?_⟩
  · refine ⟨by norm_num [pC1], by norm_num [pC1], by norm_num [pC1],
      by norm_num [pC1], by norm_num [pC1], by norm_num [pC1],
      by norm_num [pC1], by norm_num [pC1], by norm_num [pC1],
      by norm_num [pC1]⟩
  · rw [hval]
    have hr : 2 * (iC1.navPct / pC1.maxInventoryPct) = 2 := by
      norm_num [pC1, iC1]
    rw [hr]
    intro heq
    nlinarith
  · rw [hval]
    norm_num

/-- C3: on the price history `[1, e]` with a 1 s window the EWMA variance
is `V = (ln e)² = 1`, and the source sets the volatility to
`sqrt(V · sqrt(252·86400))` — the annualisation factor sits under a
second square root — which is strictly below the `sqrt(V · 252·86400)`
the claim states. -/
theorem c3_update_volatility_double_sqrt :
    updateVolatility 1000 [1, Real.exp 1] =
      some (Real.sqrt (Real.sqrt (252 * 24 * 60 * 60))) ∧
    Real.sqrt (Real.sqrt (252 * 24 * 60 * 60)) < specAnnualisedVol 1 := by
  constructor
  · simp only [updateVolatility, squaredLogReturns, ewmaVariance]
    rw [if_neg (by norm_num)]
    simp only [List.foldl_nil]
    norm_num [Real.log_exp]
  · simp only [specAnnualisedVol, one_mul]
    have h : (252 : ℝ) * 86400 = 252 * 24 * 60 * 60 := by norm_num
    rw [h, Real.sqrt_lt_sqrt_iff (Real.sqrt_nonneg _),
      Real.sqrt_lt' (by norm_num)]
    norm_num

/-- C5 counterexample: with validated parameters (γ = 1,
`volRegimeScaler = 2`, global profile), a market with zero measured
volatility, intensity 10 and spread 1, and a flat inventory, the regime
adjustment is `(1 + (0/0.3 − 1)·2)·1 = −1`, so the adjusted half-spread
is negative and the produced quotes have `askPrice < bidPrice`. -/
theorem c5_quotes_counterexample :
    validStoikovParams pC5 ∧
    (calculateQuotes pC5 mC5 iC5 12 0).askPrice <
      (calculateQuotes pC5 mC5 iC5 12 0).bidPrice := by
  constructor
  · refine ⟨by norm_num [pC5, pC1], by norm_num [pC5, pC1],
      by norm_num [pC5, pC1], by norm_num [pC5, pC1],
      by norm_num [pC5, pC1], by norm_num [pC5, pC1],
      by norm_num [pC5, pC1], by norm_num [pC5, pC1],
      by norm_num [pC5, pC1], by norm_num [pC5, pC1]⟩
  · have hres : calculateReservationPrice pC5 mC5 iC5 = 100 := by
      norm_num [calculateReservationPrice, pC5, pC1, mC5, iC5]
    have hskew : calculateInventorySkew pC5 iC5 = 0 := by
      simp [calculateInventorySkew, iC5]
    have hreg : calculateRegimeAdjustment pC5 mC5 12 = -1 := by
      norm_num [calculateRegimeAdjustment, getTimezoneMultiplier, pC5,
        pC1, mC5]
    have hlog : Real.log (1 + 1 / 10) ≤ 3 / 10 := by
      have h := Real.log_le_sub_one_of_pos
        (x := (1:ℝ) + 1 / 10) (by norm_num)
      linarith
    have hhalf : calculateOptimalSpread pC5 mC5 iC5 = 3 / 20 := by
      simp only [calculateOptimalSpread, pC5, pC1, mC5]
      have hk : max (10:ℝ) 0.1 = 10 := by norm_num
      rw [hk]
      have h1 : (1:ℝ) * 0 * 0 / (2 * 10) + Real.log (1 + 1 / 10) / 1 =
          Real.log (1 + 1 / 10) := by norm_num
      rw [h1]
      have h2 : max ((1:ℝ) * 0.3) (1 * 0.0001) = 3 / 10 := by norm_num
      rw [h2]
      rw [max_eq_right hlog]
      norm_num
    simp only [calculateQuotes, hres, hskew, hreg, hhalf]
    norm_num

/-- C5 amended: for every produced quote the midpoint
`(bidPrice + askPrice)/2` equals the reported `reservationPrice`
exactly (the reported value already contains the skew), hence is within
`|skewFactor|` of it — with no side condition; and with γ > 0 (enforced
by `validateParams`) the ordering of the two prices follows the sign of
the regime adjustment: positive gives `bidPrice < askPrice`, zero makes
them coincide, negative inverts them. -/
theorem c5_quotes_amended (p : StoikovParams) (m : MarketState)
    (inv : InventoryState) (hour : ℕ) (now : ℝ) :
    ((calculateQuotes p m inv hour now).bidPrice +
        (calculateQuotes p m inv hour now).askPrice) / 2 =
      (calculateQuotes p m inv hour now).reservationPrice ∧
    (0 < p.gamma →
      (0 < calculateRegimeAdjustment p m hour →
        (calculateQuotes p m inv hour now).bidPrice <
          (calculateQuotes p m inv hour now).askPrice) ∧
      (calculateRegimeAdjustment p m hour = 0 →
        (calculateQuotes p m inv hour now).bidPrice =
          (calculateQuotes p m inv hour now).askPrice) ∧
      (calculateRegimeAdjustment p m hour < 0 →
        (calculateQuotes p m inv hour now).askPrice <
          (calculateQuotes p m inv hour now).bidPrice)) := by
  constructor
  · simp only [calculateQuotes]
    ring
  · intro hγ
    have hk : (0:ℝ) < max m.intensity 0.1 :=
      lt_of_lt_of_le (by norm_num) (le_max_right _ _)
    have hterm1 : 0 ≤ p.gamma * m.volatility * m.volatility /
        (2 * max m.intensity 0.1) := by
      apply div_nonneg _ (by linarith)
      have h1 : p.gamma * m.volatility * m.volatility =
          p.gamma * (m.volatility * m.volatility) := by ring
      rw [h1]
      exact mul_nonneg hγ.le (mul_self_nonneg _)
    have hterm2 : 0 < Real.log (1 + p.gamma / max m.intensity 0.1) /
        p.gamma := by
      apply div_pos _ hγ
      apply Real.log_pos
      have := div_pos hγ hk
      linarith
    have hhalf : 0 < calculateOptimalSpread p m inv := by
      simp only [calculateOptimalSpread]
      have hle : p.gamma * m.volatility * m.volatility /
            (2 * max m.intensity 0.1) +
          Real.log (1 + p.gamma / max m.intensity 0.1) / p.gamma ≤
          max (p.gamma * m.volatility * m.volatility /
            (2 * max m.intensity 0.1) +
            Real.log (1 + p.gamma / max m.intensity 0.1) / p.gamma)
          (max (m.spread * 0.3) (p.postOnlyOffset * 0.0001)) :=
        le_max_left _ _
      have hpos : 0 < p.gamma * m.volatility * m.volatility /
          (2 * max m.intensity 0.1) +
          Real.log (1 + p.gamma / max m.intensity 0.1) / p.gamma := by
        linarith
      linarith
    refine ⟨fun hreg => ?_, fun hreg => ?_, fun hreg => ?_⟩
    · have hadj : 0 < calculateOptimalSpread p m inv *
          calculateRegimeAdjustment p m hour := mul_pos hhalf hreg
      simp only [calculateQuotes]
      linarith
    · simp only [calculateQuotes, hreg, mul_zero]
      ring
    · have hadj : calculateOptimalSpread p m inv *
          calculateRegimeAdjustment p m hour < 0 :=
        mul_neg_of_pos_of_neg hhalf hreg
      simp only [calculateQuotes]
      linarith

/-- C5 witness: the amended theorem at γ = 1, `volRegimeScaler = 0`
(regime adjustment exactly 1) on the quiet market `mC5` with flat
inventory: the midpoint identity holds and, the regime adjustment being
positive, `bidPrice < askPrice`. -/
theorem c5_quotes_amended_witness :
    (0 : ℝ) < pC5w.gamma ∧
    0 < calculateRegimeAdjustment pC5w mC5 12 ∧
    ((calculateQuotes pC5w mC5 iC5 12 0).bidPrice +
        (calculateQuotes pC5w mC5 iC5 12 0).askPrice) / 2 =
      (calculateQuotes pC5w mC5 iC5 12 0).reservationPrice ∧
    (calculateQuotes pC5w mC5 iC5 12 0).bidPrice <
      (calculateQuotes pC5w mC5 iC5 12 0).askPrice := by
  have hγ : (0 : ℝ) < pC5w.gamma := by norm_num [pC5w, pC1]
  have hreg : 0 < calculateRegimeAdjustment pC5w mC5 12 := by
    norm_num [calculateRegimeAdjustment, getTimezoneMultiplier, pC5w,
      pC1, mC5]
  have h := c5_quotes_amended pC5w mC5 iC5 12 0
  exact ⟨hγ, hreg, h.1, (h.2 hγ).1 hreg⟩

end VibeTrade
